import Mathlib

/-
A verification development for the DiscordTikTokNotifier repository: a shallow
embedding of the live-session reconciliation logic of `monitoring_service.py`
(the TikTokLive event handlers `on_connect`, `on_disconnect`, `on_gift`, the
poll reconciler `check_users`, and the engine lifecycle `start`) together with
the Discord dispatcher of `discord_webhook.py`, plus theorems about the
notification-deduplication behaviour of that code.

Modelling conventions:
- Timestamps (`time.time()`, `datetime.now().isoformat()`) are natural numbers.
  ISO-string comparison in the host election is chronological, so `Nat` order
  is faithful.  Real wall-clock values are never zero; concrete inputs below
  use positive times so that the source's `if t > 0` guards behave as in
  production.
- Python dictionaries become association lists with dict semantics (updating
  an existing key keeps its position, a new key is appended); Python sets of
  usernames become duplicate-free lists.
- The HTTP result of a Discord webhook post is an oracle argument (`httpOk`);
  `DiscordWebhook.send` returns `False` when no webhook URL is configured,
  which `sinkResult` reproduces.
- The out-of-band "is the user still live" probe in the disconnect handler is
  an oracle argument of type `Probe` (still live / not live / request raised).
- Entries of `last_status` carry `is_live` plus timestamp strings; only
  `is_live` is ever read back by the code, so the model stores the Bool.
- Handlers run atomically in sequence (the per-broadcaster serialized history
  of the design notes); the 5-second settle delay inside the disconnect
  handler is folded into the handler's single timestamp argument.
-/

namespace TikTokNotifier

abbrev Username := String

/-- Association-list lookup, modelling Python `dict.get(k)`. -/
def alookup {α : Type} (l : List (Username × α)) (k : Username) : Option α :=
  (l.find? (fun p => p.1 == k)).map (fun p => p.2)

/-- Association-list update, modelling Python `dict[k] = v`: an existing key
keeps its position, a new key is appended (dict insertion order). -/
def aset {α : Type} (l : List (Username × α)) (k : Username) (v : α) :
    List (Username × α) :=
  if (l.find? (fun p => p.1 == k)).isSome then
    l.map (fun p => if p.1 == k then (k, v) else p)
  else
    l ++ [(k, v)]

/-- Association-list deletion, modelling Python `del dict[k]` (guarded by a
membership test at every call site in the source, so deleting an absent key is
a no-op here). -/
def aerase {α : Type} (l : List (Username × α)) (k : Username) :
    List (Username × α) :=
  l.filter (fun p => p.1 != k)

/-- Set insertion, modelling Python `set.add`. -/
def sinsert (s : List Username) (u : Username) : List Username :=
  if s.contains u then s else s ++ [u]

/-- Set removal, modelling Python `set.discard`. -/
def sremove (s : List Username) (u : Username) : List Username :=
  s.filter (fun v => v != u)

/-- Python `a or b` on strings (`None` is modelled as `""`; both are falsy). -/
def pyOrStr (a b : String) : String := if a = "" then b else a

/-- Drop leading whitespace from a character list. -/
def trimLeftList : List Char → List Char
  | [] => []
  | c :: cs => if c.isWhitespace then trimLeftList cs else c :: cs

/-- Python `str.strip`: drop whitespace from both ends. -/
def pyStrip (s : String) : String :=
  ⟨(trimLeftList (trimLeftList s.data).reverse).reverse⟩

/-- The username normalization of `check_users`:
`if username.startswith(chr(64)): username = username[1:]`. -/
def stripAtSign (s : String) : String :=
  match s.data with
  | c :: cs => if c = '@' then ⟨cs⟩ else s
  | [] => s

def isPrefixList : List Char → List Char → Bool
  | [], _ => true
  | _ :: _, [] => false
  | p :: ps, c :: cs => p == c && isPrefixList ps cs

/-- Substring containment on character lists. -/
def containsList : List Char → List Char → Bool
  | [], pat => pat.isEmpty
  | c :: cs, pat => isPrefixList pat (c :: cs) || containsList cs pat

/-- Python `str.lower`. -/
def pyLower (s : String) : String := ⟨s.data.map Char.toLower⟩

/-- A notification handed to the Discord sink, with the dispatch time and the
result the sink returned. -/
inductive Notif
  | start (u : Username) (isHost : Bool) (ok : Bool) (t : Nat)
  | endLive (u : Username) (ok : Bool) (t : Nat)
  deriving DecidableEq

def Notif.isEnd : Notif → Bool
  | .endLive _ _ _ => true
  | _ => false

def Notif.isSuccessStart : Notif → Bool
  | .start _ _ ok _ => ok
  | _ => false

def Notif.isSuccessEnd : Notif → Bool
  | .endLive _ ok _ => ok
  | _ => false

/-- Result of the out-of-band live-status re-check performed by the disconnect
handler after its 5-second settle delay: HTTP 200 (`stillLive`), any other
status (`notLive`), or the request raising (`probeFailed`). -/
inductive Probe
  | stillLive
  | notLive
  | probeFailed
  deriving DecidableEq

/-- The mutable state of `MonitoringService.__init__`, plus the two
environment variables the service reads and writes (`DISCORD_WEBHOOK_URL`,
`DISCORD_GIFT_WEBHOOK_URL`, modelled as `envMain`/`envGift`, absent = `""`).
`loopThreads` counts event-loop threads created and `schedulerJobs` holds the
scheduler's job ids, so that frame effects of `start` are observable. -/
structure MonitoringService where
  running : Bool
  last_status : List (Username × Bool)
  current_live_users : List (Username × Nat)
  host_priority : Option Username
  live_clients : List Username
  webhook_url : String
  gift_webhook_url : String
  envMain : String
  envGift : String
  connection_attempts : List (Username × Nat)
  notified_users : List Username
  successfully_connected : List Username
  connection_start_times : List (Username × Nat)
  end_notification_sent : List Username
  end_notification_cooldown : List (Username × Nat)
  loopThreads : Nat
  schedulerJobs : List String
  deriving DecidableEq

/-- `MonitoringService.__init__` (webhook URLs start as `None`, i.e. `""`). -/
def MonitoringService.init (envMain envGift : String) : MonitoringService :=
  { running := false, last_status := [], current_live_users := [],
    host_priority := none, live_clients := [], webhook_url := "",
    gift_webhook_url := "", envMain := envMain, envGift := envGift,
    connection_attempts := [], notified_users := [],
    successfully_connected := [], connection_start_times := [],
    end_notification_sent := [], end_notification_cooldown := [],
    loopThreads := 0, schedulerJobs := [] }

/-- `MonitoringService.start`: guarded entirely by `if not self._running`; on
a fresh start it stores the webhook URLs (a truthy parameter also overwrites
the environment variable, a falsy one falls back to it), spawns the event-loop
thread, registers the `check_users` interval job (`replace_existing=True`,
hence set semantics) and sets the running flag. -/
def MonitoringService.start (s : MonitoringService)
    (webhook_url gift_webhook_url : Option String) : MonitoringService :=
  if !s.running then
    let s1 :=
      match webhook_url with
      | some w =>
        if w != "" then { s with webhook_url := w, envMain := w }
        else { s with webhook_url := s.envMain }
      | none => { s with webhook_url := s.envMain }
    let s2 :=
      match gift_webhook_url with
      | some g =>
        if g != "" then { s1 with gift_webhook_url := g, envGift := g }
        else { s1 with gift_webhook_url := s1.envGift }
      | none => { s1 with gift_webhook_url := s1.envGift }
    { s2 with loopThreads := s2.loopThreads + 1,
              schedulerJobs := sinsert s2.schedulerJobs "check_users",
              running := true }
  else s

/-- `MonitoringService.is_running`. -/
def MonitoringService.is_running (s : MonitoringService) : Bool := s.running

/-- Result of one Discord dispatch from the monitoring service: the handlers
build `DiscordWebhook(webhook_url=self._webhook_url or env)` and `send`
returns `False` when the URL is empty, otherwise the HTTP outcome. -/
def sinkResult (s : MonitoringService) (httpOk : Bool) : Bool :=
  if pyOrStr s.webhook_url s.envMain = "" then false else httpOk

/-- The `ConnectEvent` handler `on_connect` of `connect_to_live_stream`:
records the confirmed connection, then — unless a notification for this
session was already sent, or the user was already marked live — dispatches a
go-live notification whose `is_host` flag is true exactly when no user is
currently marked live in `last_status`; only a successful dispatch adds the
user to `notified_users` and clears stale end-notification bookkeeping. -/
def on_connect (s : MonitoringService) (username : Username) (now : Nat)
    (httpOk : Bool) : MonitoringService × List Notif :=
  let s := { s with
    successfully_connected := sinsert s.successfully_connected username,
    connection_start_times := aset s.connection_start_times username now,
    current_live_users := aset s.current_live_users username now,
    connection_attempts := aerase s.connection_attempts username }
  let was_live := (alookup s.last_status username).getD false
  if s.notified_users.contains username then
    ({ s with last_status := aset s.last_status username true }, [])
  else if !was_live then
    let currently_live_count := (s.last_status.filter (fun p => p.2)).length
    let is_host := currently_live_count == 0
    let result := sinkResult s httpOk
    let s' :=
      if result then
        { s with notified_users := sinsert s.notified_users username,
                 end_notification_sent :=
                   sremove s.end_notification_sent username,
                 end_notification_cooldown :=
                   aerase s.end_notification_cooldown username }
      else s
    ({ s' with last_status := aset s'.last_status username true },
     [Notif.start username is_host result now])
  else
    ({ s with last_status := aset s.last_status username true }, [])

/-- The `DisconnectEvent` handler `on_disconnect` of
`connect_to_live_stream`: removes the user from `current_live_users`, and
sends an end notification only when every gate passes (successfully connected
and notified; no end notification already sent; 60-second cooldown elapsed;
marked live; connection lasted at least 30 seconds; the out-of-band probe does
not report still-live).  On the dispatch path, `end_notification_sent` and the
cooldown are updated only on success, but `notified_users` removal and the
not-live status update run unconditionally.  Early-return gates skip the final
`live_clients` cleanup exactly as the Python `return` statements do. -/
def on_disconnect (s : MonitoringService) (username : Username) (now : Nat)
    (probe : Probe) (httpOk : Bool) : MonitoringService × List Notif :=
  let s := { s with
    current_live_users := aerase s.current_live_users username }
  if s.successfully_connected.contains username &&
     s.notified_users.contains username then
    let was_live := (alookup s.last_status username).getD false
    if s.end_notification_sent.contains username then
      ({ s with
          successfully_connected := sremove s.successfully_connected username,
          connection_start_times :=
            aerase s.connection_start_times username }, [])
    else
      let last_end_time := (alookup s.end_notification_cooldown username).getD 0
      let time_since_last := if last_end_time > 0 then now - last_end_time else 999
      if time_since_last < 60 then (s, [])
      else if was_live then
        let connection_start := (alookup s.connection_start_times username).getD 0
        let connection_duration :=
          if connection_start > 0 then now - connection_start else 0
        if connection_duration < 30 then
          ({ s with
              successfully_connected :=
                sremove s.successfully_connected username,
              connection_start_times :=
                aerase s.connection_start_times username }, [])
        else
          match probe with
          | Probe.stillLive => (s, [])
          | Probe.probeFailed => (s, [])
          | Probe.notLive =>
            let result := sinkResult s httpOk
            let s1 :=
              if result then
                { s with
                    end_notification_sent :=
                      sinsert s.end_notification_sent username,
                    end_notification_cooldown :=
                      aset s.end_notification_cooldown username now }
              else s
            let s2 := { s1 with
              notified_users := sremove s1.notified_users username,
              last_status := aset s1.last_status username false }
            ({ s2 with
                successfully_connected :=
                  sremove s2.successfully_connected username,
                connection_start_times :=
                  aerase s2.connection_start_times username,
                live_clients := sremove s2.live_clients username },
             [Notif.endLive username result now])
      else
        ({ s with
            successfully_connected := sremove s.successfully_connected username,
            connection_start_times := aerase s.connection_start_times username,
            live_clients := sremove s.live_clients username }, [])
  else
    ({ s with
        successfully_connected := sremove s.successfully_connected username,
        connection_start_times := aerase s.connection_start_times username,
        live_clients := sremove s.live_clients username }, [])

/-- `connect_to_live_stream`: a no-op when a client for the user already
exists; otherwise (the event loop is running while the engine runs) registers
the handlers and stores the client.  The WebSocket connection itself proceeds
in the background; its confirmation arrives later as a `ConnectEvent`. -/
def connect_to_live_stream (s : MonitoringService) (username : Username) :
    MonitoringService :=
  if s.live_clients.contains username then s
  else { s with live_clients := s.live_clients ++ [username] }

/-- Loop state of the per-user pass of `check_users`. -/
structure PollAcc where
  s : MonitoringService
  currently_live : List (Username × Nat)
  new_live_users : List (Username × Nat)
  ended_live_users : List Username

/-- One iteration of the per-user loop of `check_users`: normalizes the
username, throttles and issues connection attempts, proactively disconnects a
client for a no-longer-live user, classifies the user into
`currently_live` / `new_live_users` / `ended_live_users`, and updates
`last_status` — including the cleanup branch that strips a not-live user out
of `notified_users`, and the fallback branch that marks a user not-live. -/
def pollUser (now : Nat) (acc : PollAcc) (raw : String) : PollAcc :=
  let username := pyStrip raw
  if username = "" then acc
  else
    let username := stripAtSign username
    let s := acc.s
    let was_live := (alookup s.last_status username).getD false
    let is_live := (alookup s.current_live_users username).isSome
    let last_attempt := (alookup s.connection_attempts username).getD 0
    let time_since_attempt := if last_attempt != 0 then now - last_attempt else 999
    let s :=
      if !s.live_clients.contains username && time_since_attempt > 15 then
        connect_to_live_stream
          { s with connection_attempts := aset s.connection_attempts username now }
          username
      else if !is_live && s.live_clients.contains username then
        { s with live_clients := sremove s.live_clients username }
      else s
    if is_live then
      let connected_at := (alookup s.current_live_users username).getD now
      let currently_live := aset acc.currently_live username connected_at
      let sNew :=
        if !was_live && !s.notified_users.contains username then
          (s, acc.new_live_users ++ [(username, connected_at)])
        else if was_live && s.notified_users.contains username then
          (s, acc.new_live_users)
        else if !was_live && s.notified_users.contains username then
          ({ s with notified_users := sremove s.notified_users username },
           acc.new_live_users ++ [(username, connected_at)])
        else
          (s, acc.new_live_users)
      { acc with
          s := { sNew.1 with
                   last_status := aset sNew.1.last_status username true },
          currently_live := currently_live,
          new_live_users := sNew.2 }
    else
      if was_live && s.successfully_connected.contains username &&
         s.notified_users.contains username &&
         !s.live_clients.contains username then
        let connection_start := (alookup s.connection_start_times username).getD 0
        let connection_duration :=
          if connection_start > 0 then now - connection_start else 0
        if connection_duration >= 10 then
          { acc with s := s,
                     ended_live_users := acc.ended_live_users ++ [username] }
        else
          { acc with s := s }
      else if was_live && !s.notified_users.contains username then
        { acc with s := { s with
            last_status := aset s.last_status username false,
            successfully_connected := sremove s.successfully_connected username,
            connection_start_times :=
              aerase s.connection_start_times username } }
      else
        { acc with s := { s with
            last_status := aset s.last_status username false } }

/-- One step of the host election of `check_users`: keep the entry with the
strictly earlier connection time (the first minimum in iteration order wins
ties, as in `connection_time < earliest_connection`). -/
def electStep (best : Option (Username × Nat)) (p : Username × Nat) :
    Option (Username × Nat) :=
  match best with
  | none => some p
  | some b => if p.2 < b.2 then some p else some b

/-- Host election of `check_users`: fold over `currently_live` keeping the
entry with the earliest connection time. -/
def electBest (cl : List (Username × Nat)) : Option (Username × Nat) :=
  cl.foldl electStep none

/-- One iteration of the notification loop of `check_users`: computes
`is_host` (host and more than one user live), skips users already in
`notified_users` or with an active client, dispatches the go-live
notification otherwise, and records success in `notified_users`. -/
def notifyUser (now : Nat) (liveCount : Nat) (host : Option Username)
    (sink : Username → Bool) (acc : MonitoringService × List Notif)
    (p : Username × Nat) : MonitoringService × List Notif :=
  let s := acc.1
  let username := p.1
  let is_host := host == some username && liveCount > 1
  if s.notified_users.contains username then acc
  else if !s.live_clients.contains username then
    let result := sinkResult s (sink username)
    let s' :=
      if result then
        { s with notified_users := sinsert s.notified_users username }
      else s
    (s', acc.2 ++ [Notif.start username is_host result now])
  else acc

/-- The webhook-URL fallback at the top of `check_users`: when no URL is
stored yet, take it from the environment. -/
def resolveWebhookUrl (s : MonitoringService) : MonitoringService :=
  if s.webhook_url = "" then { s with webhook_url := s.envMain } else s

/-- The periodic poll reconciler `check_users`: resolves the webhook URL and
returns early when it is missing or the watch-list is empty; runs the
per-user loop; re-elects the host; restricts `new_live_users` to the host
when more than one user is live; dispatches the remaining go-live
notifications; logs — but never dispatches — poll-detected stream ends; and
replaces `current_live_users` with the freshly observed set. -/
def check_users (s : MonitoringService) (users : List String) (now : Nat)
    (sink : Username → Bool) : MonitoringService × List Notif :=
  let s := resolveWebhookUrl s
  if s.webhook_url = "" then (s, [])
  else if users = [] then (s, [])
  else
    let acc := users.foldl (pollUser now)
      { s := s, currently_live := [], new_live_users := [],
        ended_live_users := [] }
    let host := (electBest acc.currently_live).map (fun p => p.1)
    let s1 := { acc.s with host_priority := host }
    let users_to_notify :=
      if acc.currently_live.length > 1 then
        acc.new_live_users.filter (fun p => host == some p.1)
      else acc.new_live_users
    let r := users_to_notify.foldl
      (notifyUser now acc.currently_live.length host sink) (s1, [])
    ({ r.1 with current_live_users := acc.currently_live }, r.2)

/-- A serialized adapter/poll event, carrying its oracle results (HTTP
outcome of the Discord post, out-of-band probe result).  Poll cycles in the
concrete traces below run with an always-successful sink. -/
inductive Ev
  | connectEv (u : Username) (now : Nat) (httpOk : Bool)
  | disconnectEv (u : Username) (now : Nat) (probe : Probe) (httpOk : Bool)
  | pollEv (users : List String) (now : Nat)

def stepEv (s : MonitoringService) : Ev → MonitoringService × List Notif
  | Ev.connectEv u now ok => on_connect s u now ok
  | Ev.disconnectEv u now probe ok => on_disconnect s u now probe ok
  | Ev.pollEv users now => check_users s users now (fun _ => true)

/-- Run a serialized sequence of events, accumulating every dispatched
notification in order. -/
def runTrace (s : MonitoringService) (evs : List Ev) :
    MonitoringService × List Notif :=
  evs.foldl
    (fun acc e =>
      let r := stepEv acc.1 e
      (r.1, acc.2 ++ r.2))
    (s, [])

/-- A gift payload as probed by `on_gift` via `getattr` fallbacks: each
possible attribute is optional (`none` = attribute absent). -/
structure GiftObj where
  name : Option String
  gift_name : Option String
  giftName : Option String
  giftId : Option String
  gift_id : Option String
  repeat_count : Option Nat
  repeatCount : Option Nat
  count : Option Nat
  amount : Option Nat
  deriving DecidableEq

/-- The gifter as probed by `on_gift`. -/
structure UserObj where
  unique_id : Option String
  uniqueId : Option String
  nickname : Option String
  name : Option String
  deriving DecidableEq

/-- A `GiftEvent` as seen by `on_gift`.  When the event lacks a `gift`
attribute the source probes the event object itself, which carries none of
the gift fields, so that path coincides with `gift := none` here. -/
structure GiftEventM where
  gift : Option GiftObj
  user : Option UserObj
  deriving DecidableEq

/-- Python `a or b` on optional strings (`None` and `""` are falsy). -/
def pyOrOptStr (a b : Option String) : Option String :=
  match a with
  | some s => if s = "" then b else some s
  | none => b

/-- Python `a or b` on optional numbers (`None` and `0` are falsy). -/
def pyOrOptNat (a b : Option Nat) : Option Nat :=
  match a with
  | some n => if n = 0 then b else some n
  | none => b

/-- Python falsiness of an optional string. -/
def optFalsy (o : Option String) : Bool :=
  match o with
  | none => true
  | some s => s = ""

/-- Python `str.isdigit` (true only on a nonempty all-digit string). -/
def pyIsDigit (s : String) : Bool :=
  s.data.length > 0 && s.data.all (fun c => c.isDigit)

/-- Python `pat in s` substring containment. -/
def containsSub (s pat : String) : Bool :=
  containsList s.data pat.data

/-- The `GiftEvent` handler `on_gift` of `connect_to_live_stream`, reduced to
the payload it hands to `send_gift_notification`: the gift name via the
attribute chain, the `__dict__` re-probe, the placeholder `"Gift"`, and the
id-looking-name correction; the repeat count via its chain with default 1;
the gifter username via its chain with default `""`.  The whole handler is
wrapped in `try/except` in the source and this model is a total function, so
no exception escapes it. -/
def on_gift (e : GiftEventM) : String × Nat × String :=
  let giftNameCount :=
    match e.gift with
    | none => ("Gift", 1)
    | some g =>
      let chain1 :=
        pyOrOptStr g.name (pyOrOptStr g.gift_name (pyOrOptStr g.giftName
          (pyOrOptStr g.giftId (pyOrOptStr g.gift_id none))))
      let chain2 :=
        if optFalsy chain1 then
          pyOrOptStr g.name (pyOrOptStr g.gift_name (pyOrOptStr g.giftName none))
        else chain1
      let gift_name := if optFalsy chain2 then "Gift" else chain2.getD "Gift"
      let gift_name :=
        if gift_name != "" &&
           (pyIsDigit gift_name || containsSub (pyLower gift_name) "id") then
          let actual_name := pyOrOptStr g.name g.gift_name
          if !optFalsy actual_name then actual_name.getD gift_name
          else gift_name
        else gift_name
      let repeat_count :=
        (pyOrOptNat g.repeat_count (pyOrOptNat g.repeatCount (pyOrOptNat g.count
          (pyOrOptNat g.amount (pyOrOptNat g.repeat_count
            (pyOrOptNat g.count none)))))).getD 1
      (gift_name, repeat_count)
  let gifter_username :=
    match e.user with
    | none => ""
    | some gifter =>
      (pyOrOptStr gifter.unique_id (pyOrOptStr gifter.uniqueId
        (pyOrOptStr gifter.nickname (pyOrOptStr gifter.name none)))).getD ""
  (giftNameCount.1, giftNameCount.2, gifter_username)

/-- The gift name fields `on_gift` probes are all absent. -/
def giftNameMissing (e : GiftEventM) : Bool :=
  match e.gift with
  | none => true
  | some g =>
    g.name == none && g.gift_name == none && g.giftName == none &&
    g.giftId == none && g.gift_id == none

/-- The repeat-count fields `on_gift` probes are all absent. -/
def giftCountMissing (e : GiftEventM) : Bool :=
  match e.gift with
  | none => true
  | some g =>
    g.repeat_count == none && g.repeatCount == none && g.count == none &&
    g.amount == none

/-- The dispatcher state of `discord_webhook.py` (`DiscordWebhook.__init__`
resolves each URL as parameter-or-environment before storing it). -/
structure DiscordWebhook where
  webhook_url : String
  gift_webhook_url : String
  deriving DecidableEq

/-- `DiscordWebhook.send`: fails when no webhook URL is configured, otherwise
returns the HTTP outcome (all request exceptions are caught and become
`False`). -/
def DiscordWebhook.send (w : DiscordWebhook) (httpOk : Bool) : Bool :=
  if w.webhook_url = "" then false else httpOk

/-- `DiscordWebhook.send_gift_notification`, reduced to its webhook-URL
handling: it saves `webhook_url`, temporarily switches to the gift webhook
URL when one is configured, sends (no exception can escape `send`), restores
the original `webhook_url`, and returns the send result together with the
updated dispatcher state. -/
def DiscordWebhook.send_gift_notification (w : DiscordWebhook)
    (httpOk : Bool) : DiscordWebhook × Bool :=
  let original_webhook_url := w.webhook_url
  let w1 :=
    if w.gift_webhook_url != "" then
      { w with webhook_url := w.gift_webhook_url }
    else w
  let result := w1.send httpOk
  let w2 := { w1 with webhook_url := original_webhook_url }
  (w2, result)

/-! Concrete states and traces used by the claim theorems. -/

/-- A freshly started service with the main webhook configured. -/
def s0w : MonitoringService :=
  MonitoringService.start (MonitoringService.init "" "") (some "w") none

/-- Trace for C1: confirmed connect with a successful start dispatch, then a
disconnect whose end dispatch passes every gate but fails at the sink, then a
reconnect with a successful dispatch. -/
def c1trace : List Ev :=
  [Ev.connectEv "b" 5 true,
   Ev.disconnectEv "b" 45 Probe.notLive false,
   Ev.connectEv "b" 50 true]

/-- State for C2: a broadcaster with a successfully dispatched start
notification, connected since time 5. -/
def c2state : MonitoringService := (runTrace s0w [Ev.connectEv "b" 5 true]).1

/-- C2's failing disconnect: all end gates pass, the sink returns failure. -/
def c2result : MonitoringService × List Notif :=
  on_disconnect c2state "b" 45 Probe.notLive false

/-- State for C3: start notified at time 5, then a disconnect after only 15
seconds (treated as a blip: no end notification, still marked live). -/
def c3state : MonitoringService :=
  (runTrace s0w
    [Ev.connectEv "b" 5 true, Ev.disconnectEv "b" 20 Probe.notLive true]).1

/-- The poll cycle following C3's blip disconnect. -/
def c3poll : MonitoringService × List Notif :=
  check_users c3state ["b"] 40 (fun _ => true)

/-- Trace for C4's counterexample: a failed start dispatch followed directly
by the next connect confirmation. -/
def c4trace : List Ev :=
  [Ev.connectEv "b" 5 false, Ev.connectEv "b" 10 true]

/-- Trace for C4's amended claim: after the failed start dispatch, a
disconnect and a poll cycle reset the live mark, after which a connect
confirmation retries the dispatch successfully. -/
def c4retryTrace : List Ev :=
  [Ev.connectEv "b" 5 false,
   Ev.disconnectEv "b" 20 Probe.notLive true,
   Ev.pollEv ["b"] 40,
   Ev.connectEv "b" 50 true]

/-- State for C5's counterexample: "v" went live with a successful start at
time 5 and blip-disconnected at 15, leaving a stale live mark in
`last_status` while no broadcaster is confirmed connected any more. -/
def c5state : MonitoringService :=
  (runTrace s0w
    [Ev.connectEv "v" 5 true, Ev.disconnectEv "v" 15 Probe.stillLive true]).1

/-- A state with one stale live mark, for the C5 amended witness. -/
def c5witnessState : MonitoringService :=
  { MonitoringService.init "w" "" with last_status := [("v", true)] }

/-- Trace for C7's counterexample: end notified successfully at 45, restart
with a successful start at 50 (which clears the cooldown), disconnect at 85
passing every gate. -/
def c7trace : List Ev :=
  [Ev.connectEv "b" 5 true,
   Ev.disconnectEv "b" 45 Probe.notLive true,
   Ev.connectEv "b" 50 true,
   Ev.disconnectEv "b" 85 Probe.notLive true]

/-- State for C7's amended witness: start notified, connected since 50, end
cooldown recorded at 45. -/
def c7state : MonitoringService :=
  { MonitoringService.init "w" "" with
      last_status := [("b", true)],
      notified_users := ["b"],
      successfully_connected := ["b"],
      connection_start_times := [("b", 50)],
      end_notification_cooldown := [("b", 45)] }

/-- A gift event whose gift object carries none of the probed attributes and
whose gifter is absent. -/
def emptyGiftEvent : GiftEventM :=
  { gift := some { name := none, gift_name := none, giftName := none,
                   giftId := none, gift_id := none, repeat_count := none,
                   repeatCount := none, count := none, amount := none },
    user := none }

/-- A service that is already running, for the C9 witness. -/
def runningService : MonitoringService :=
  MonitoringService.start (MonitoringService.init "envhook" "") (some "hook") none

/-! Helper lemmas. -/

/-- No notification in the list is an end notification. -/
def allNoEnd (l : List Notif) : Bool := l.all (fun n => !n.isEnd)

/-- Folding `electStep` from a seed yields a minimal entry: it is the seed or
a list element, its time is at most the seed's, and at most every listed
time. -/
theorem electStep_foldl_min (cl : List (Username × Nat)) (b : Username × Nat) :
    ∃ p, cl.foldl electStep (some b) = some p ∧
      p.2 ≤ b.2 ∧ (p = b ∨ p ∈ cl) ∧ ∀ q ∈ cl, p.2 ≤ q.2 := by
  induction cl generalizing b with
  | nil => exact ⟨b, rfl, le_refl _, Or.inl rfl, by simp⟩
  | cons q cl ih =>
    by_cases h : q.2 < b.2
    · obtain ⟨p, hf, hle, hmem, hall⟩ := ih q
      refine ⟨p, ?_, le_trans hle (le_of_lt h), ?_, ?_⟩
      · simpa [electStep, h] using hf
      · cases hmem with
        | inl hp => exact Or.inr (by simp [hp])
        | inr hp => exact Or.inr (List.mem_cons_of_mem _ hp)
      · intro r hr
        cases List.mem_cons.mp hr with
        | inl hq => exact hq ▸ hle
        | inr hq => exact hall r hq
    · obtain ⟨p, hf, hle, hmem, hall⟩ := ih b
      refine ⟨p, ?_, hle, ?_, ?_⟩
      · simpa [electStep, h] using hf
      · cases hmem with
        | inl hp => exact Or.inl hp
        | inr hp => exact Or.inr (List.mem_cons_of_mem _ hp)
      · intro r hr
        cases List.mem_cons.mp hr with
        | inl hq => exact hq ▸ le_trans hle (le_of_not_lt h)
        | inr hq => exact hall r hq

/-- The host elected by `electBest` is a member of the live set with the
earliest connection time. -/
theorem electBest_min (cl : List (Username × Nat)) (p : Username × Nat)
    (h : electBest cl = some p) : p ∈ cl ∧ ∀ q ∈ cl, p.2 ≤ q.2 := by
  cases cl with
  | nil => simp [electBest] at h
  | cons hd tl =>
    have hfold : tl.foldl electStep (some hd) = some p := by
      simpa [electBest, electStep] using h
    obtain ⟨p', hf, hle, hmem, hall⟩ := electStep_foldl_min tl hd
    have hpp : p' = p := by rw [hf] at hfold; exact Option.some.inj hfold
    subst hpp
    constructor
    · cases hmem with
      | inl hp => exact hp ▸ List.mem_cons_self _ _
      | inr hp => exact List.mem_cons_of_mem _ hp
    · intro q hq
      cases List.mem_cons.mp hq with
      | inl hq1 => exact hq1 ▸ hle
      | inr hq1 => exact hall q hq1

/-- Every notification emitted by the dispatch loop of `check_users` is a
start notification, provided the accumulator held none but starts. -/
theorem notifyUser_foldl_no_end (now liveCount : Nat) (host : Option Username)
    (sink : Username → Bool) :
    ∀ (l : List (Username × Nat)) (s : MonitoringService) (ns : List Notif),
      allNoEnd ns = true →
      allNoEnd (l.foldl (notifyUser now liveCount host sink) (s, ns)).2 = true := by
  intro l
  induction l with
  | nil => intro s ns h; simpa using h
  | cons p l ih =>
    intro s ns h
    rw [List.foldl_cons]
    show allNoEnd (l.foldl _ (notifyUser now liveCount host sink (s, ns) p)).2 = true
    unfold notifyUser
    dsimp only
    split
    · exact ih s ns h
    · split
      · apply ih
        simp only [allNoEnd, List.all_append, List.all_cons, List.all_nil,
          Notif.isEnd, Bool.not_false, Bool.and_true] at h ⊢
        simp [h]
      · exact ih s ns h

/-! Claim theorems. -/

/-- C1: the claim states that at most one start dispatch for a broadcaster
succeeds between two successive successful end notifications.  Evaluating the
code on the failing trace: a successful start at time 5, then a disconnect at
45 whose end dispatch passes every gate but FAILS at the sink — the handler
nevertheless removes the broadcaster from `notified_users` and marks it
not-live — so the reconnect at 50 dispatches a second successful start with
no successful end notification in between. -/
theorem c1_two_successful_starts_without_successful_end :
    (runTrace s0w c1trace).2 =
      [Notif.start "b" true true 5, Notif.endLive "b" false 45,
       Notif.start "b" true true 50] ∧
    ((runTrace s0w c1trace).2.countP (fun n => n.isSuccessStart)) = 2 ∧
    ((runTrace s0w c1trace).2.countP (fun n => n.isSuccessEnd)) = 0 := by
  decide

/-- C2: evaluating the code at the failing input.  All end gates pass for
"b" and the end dispatch returns failure: `end_notification_sent` correctly
stays empty, but the handler strips "b" out of `notified_users` and sets its
status to not-live anyway, and a subsequent disconnect trigger therefore
dispatches nothing (no retry is possible), contradicting the claim. -/
theorem c2_failed_end_dispatch_clears_dedup_state :
    c2result.2 = [Notif.endLive "b" false 45] ∧
    c2result.1.end_notification_sent = [] ∧
    c2result.1.notified_users = [] ∧
    alookup c2result.1.last_status "b" = some false ∧
    (on_disconnect c2result.1 "b" 100 Probe.notLive true).2 = [] := by
  decide

/-- C3: evaluating the code at the failing input.  A disconnect 15 seconds
after confirmation produces no end notification and the disconnect handler
keeps "b" marked live, but the following `check_users` run falls into its
fallback branch (because the blip handling removed "b" from
`successfully_connected` while keeping it in `notified_users`) and marks "b"
not-live, contradicting the claim's second half. -/
theorem c3_next_poll_marks_not_live_after_short_disconnect :
    (runTrace s0w
      [Ev.connectEv "b" 5 true, Ev.disconnectEv "b" 20 Probe.notLive true]).2 =
      [Notif.start "b" true true 5] ∧
    alookup c3state.last_status "b" = some true ∧
    c3poll.2 = [] ∧
    alookup c3poll.1.last_status "b" = some false := by
  decide

/-- C4, counterexample: a start dispatch for "b" fails at time 5; the very
next connect confirmation at time 10 dispatches nothing (the handler sees "b"
already marked live and treats the event as a reconnection), refuting the
claim that the next connect-confirmation event retries the dispatch. -/
theorem c4_counterexample_next_connect_does_not_retry :
    (runTrace s0w c4trace).2 = [Notif.start "b" true false 5] ∧
    (runTrace s0w c4trace).1.notified_users = [] := by
  decide

/-- C4, amended: a failed start dispatch never touches `notified_users`
(`startNotified` remains false), and the dispatch is retried not by the next
connect confirmation but only after the broadcaster's live mark is reset — in
the concrete trace, a disconnect followed by a poll cycle resets it, after
which the connect confirmation at time 50 dispatches the start again,
successfully. -/
theorem c4_amended_failed_start_keeps_flag_and_retries_after_reset :
    (∀ (s : MonitoringService) (u : Username) (now : Nat),
      (on_connect s u now false).1.notified_users = s.notified_users) ∧
    (runTrace s0w c4retryTrace).2 =
      [Notif.start "b" true false 5, Notif.start "b" true true 50] := by
  constructor
  · intro s u now
    unfold on_connect sinkResult
    dsimp only
    split
    · rfl
    · split
      · simp
      · rfl
  · decide

/-- C5, counterexample: after "v" goes live (successful start at 5) and
blip-disconnects at 15, the state has no confirmed-live broadcaster at all
(`current_live_users` and `successfully_connected` are empty) but a stale
live mark for "v" in `last_status`; when "u" is then confirmed at 20 it is
the only confirmed-live broadcaster, yet its start notification carries
`isHost = false`, refuting the claim that a lone confirmed-live
broadcaster's start notification carries `isHost = true`. -/
theorem c5_counterexample_lone_confirmed_live_not_host :
    c5state.current_live_users = [] ∧
    c5state.successfully_connected = [] ∧
    (on_connect c5state "u" 20 true).1.current_live_users = [("u", 20)] ∧
    (on_connect c5state "u" 20 true).1.successfully_connected = ["u"] ∧
    (on_connect c5state "u" 20 true).2 = [Notif.start "u" false true 20] := by
  decide

/-- C5, amended: host election over `currently_live` returns a broadcaster
with the earliest connection time, and a lone live broadcaster is elected
host; but the `isHost` flag of a start notification dispatched by the
connect handler is computed from `last_status` — it is true exactly when no
broadcaster at all is marked live there — so a stale live mark (as in the
counterexample) yields `isHost = false` even for the lone confirmed-live
broadcaster. -/
theorem c5_amended_host_election_and_connect_flag :
    (∀ (u : Username) (t : Nat), electBest [(u, t)] = some (u, t)) ∧
    (∀ (cl : List (Username × Nat)) (p : Username × Nat),
      electBest cl = some p → p ∈ cl ∧ ∀ q ∈ cl, p.2 ≤ q.2) ∧
    (∀ (s : MonitoringService) (u : Username) (now : Nat) (ok : Bool),
      s.notified_users.contains u = false →
      (alookup s.last_status u).getD false = false →
      (on_connect s u now ok).2 =
        [Notif.start u ((s.last_status.filter (fun p => p.2)).length == 0)
          (sinkResult s ok) now]) := by
  refine ⟨fun u t => rfl, electBest_min, ?_⟩
  intro s u now ok h1 h2
  unfold on_connect
  dsimp only
  rw [show ({ s with
        successfully_connected := sinsert s.successfully_connected u,
        connection_start_times := aset s.connection_start_times u now,
        current_live_users := aset s.current_live_users u now,
        connection_attempts := aerase s.connection_attempts u } :
          MonitoringService).notified_users = s.notified_users from rfl]
  rw [h1, h2]
  simp [sinkResult]

/-- Witness for the C5 amended theorem at concrete inputs: a singleton live
set elects its member, and in a state with one stale live mark a connect
confirmation for "u" dispatches a start whose host flag is the emptiness
check of the live marks (false here). -/
theorem c5_amended_witness :
    electBest [("a", 3)] = some ("a", 3) ∧
    (on_connect c5witnessState "u" 20 true).2 =
      [Notif.start "u"
        ((c5witnessState.last_status.filter (fun p => p.2)).length == 0)
        (sinkResult c5witnessState true) 20] :=
  ⟨c5_amended_host_election_and_connect_flag.1 "a" 3,
   c5_amended_host_election_and_connect_flag.2.2 c5witnessState "u" 20 true
     (by decide) (by decide)⟩

/-- C6: the poll reconciler never dispatches an end notification — for every
state, watch-list, time and sink behaviour, every notification emitted by
`check_users` fails the `isEnd` test; ends are dispatched only by the
disconnect handler. -/
theorem c6_poll_path_never_dispatches_end (s : MonitoringService)
    (users : List String) (now : Nat) (sink : Username → Bool) :
    allNoEnd (check_users s users now sink).2 = true := by
  unfold check_users
  dsimp only
  split
  · rfl
  · split
    · rfl
    · exact notifyUser_foldl_no_end now _ _ sink _ _ [] rfl

/-- C7, counterexample: "b" ends successfully at 45 (cooldown recorded at
45), reconnects with a successful start at 50 — which clears the cooldown —
and a disconnect at 85 passes every gate and dispatches a second successful
end notification, although 85 < 45 + 60; this refutes the claim that every
end sequence reaching the cooldown gate before T+60 aborts. -/
theorem c7_counterexample_end_dispatched_within_cooldown :
    (runTrace s0w c7trace).2 =
      [Notif.start "b" true true 5, Notif.endLive "b" true 45,
       Notif.start "b" true true 50, Notif.endLive "b" true 85] ∧
    85 < 45 + 60 := by
  decide

/-- C7, amended: as long as the cooldown marker for a broadcaster still holds
the time T of the last successful end notification (a successful start
dispatch clears it), any disconnect handled strictly before T+60 dispatches
nothing, whatever the probe and sink would do. -/
theorem c7_amended_cooldown_gate_suppresses (s : MonitoringService)
    (u : Username) (now T : Nat) (probe : Probe) (ok : Bool)
    (hc : alookup s.end_notification_cooldown u = some T)
    (hT : 0 < T) (hlt : now < T + 60) :
    (on_disconnect s u now probe ok).2 = [] := by
  have h2 : now - T < 60 := by omega
  unfold on_disconnect
  dsimp only
  split
  · split
    · rfl
    · simp [hc, hT, h2]
  · rfl

/-- Witness for the C7 amended theorem: with the cooldown recorded at 45, a
fully-gated disconnect at 80 (before 105) dispatches nothing. -/
theorem c7_amended_witness :
    (on_disconnect c7state "b" 80 Probe.notLive true).2 = [] :=
  c7_amended_cooldown_gate_suppresses c7state "b" 80 45 Probe.notLive true
    (by decide) (by decide) (by decide)

/-- C8: the gift handler is a total function (it always hands exactly one
gift payload to the dispatcher — the Python handler additionally wraps
everything in `try/except`, so no exception escapes it), and for whichever
probed fields are absent it substitutes the placeholders: gift name
`"Gift"`, repeat count 1, empty gifter name. -/
theorem c8_gift_handler_uses_placeholders (e : GiftEventM) :
    (∃ name count gifter, on_gift e = (name, count, gifter)) ∧
    (giftNameMissing e = true → (on_gift e).1 = "Gift") ∧
    (giftCountMissing e = true → (on_gift e).2.1 = 1) ∧
    (e.user = none → (on_gift e).2.2 = "") := by
  obtain ⟨g, u⟩ := e
  refine ⟨⟨_, _, _, rfl⟩, ?_, ?_, ?_⟩
  · intro h
    cases g with
    | none => rfl
    | some g0 =>
      obtain ⟨n, gn, gN, gI, gi, rc, rC, c, a⟩ := g0
      simp only [giftNameMissing, Bool.and_eq_true, beq_iff_eq] at h
      obtain ⟨⟨⟨⟨h1, h2⟩, h3⟩, h4⟩, h5⟩ := h
      subst h1; subst h2; subst h3; subst h4; subst h5
      rfl
  · intro h
    cases g with
    | none => rfl
    | some g0 =>
      obtain ⟨n, gn, gN, gI, gi, rc, rC, c, a⟩ := g0
      simp only [giftCountMissing, Bool.and_eq_true, beq_iff_eq] at h
      obtain ⟨⟨⟨h1, h2⟩, h3⟩, h4⟩ := h
      subst h1; subst h2; subst h3; subst h4
      rfl
  · intro h
    subst h
    rfl

/-- Witness for C8 at a gift event with every probed field absent. -/
theorem c8_witness :
    giftNameMissing emptyGiftEvent = true ∧
    (on_gift emptyGiftEvent).1 = "Gift" ∧
    (on_gift emptyGiftEvent).2.1 = 1 ∧
    (on_gift emptyGiftEvent).2.2 = "" :=
  ⟨by decide,
   (c8_gift_handler_uses_placeholders emptyGiftEvent).2.1 (by decide),
   (c8_gift_handler_uses_placeholders emptyGiftEvent).2.2.1 (by decide),
   (c8_gift_handler_uses_placeholders emptyGiftEvent).2.2.2 rfl⟩

/-- C9: calling `start` while the service is already running changes nothing
at all — the whole body is guarded by `if not self._running`, so the stored
webhook URLs, the environment, the scheduler jobs, the event-loop thread
count and the running flag are all exactly as before. -/
theorem c9_start_is_noop_when_running (s : MonitoringService)
    (webhook_url gift_webhook_url : Option String) (h : s.running = true) :
    MonitoringService.start s webhook_url gift_webhook_url = s := by
  unfold MonitoringService.start
  simp [h]

/-- Witness for C9: starting an already-running service with different URLs
returns the state unchanged. -/
theorem c9_witness :
    runningService.running = true ∧
    MonitoringService.start runningService (some "otherhook") (some "gifthook") =
      runningService :=
  ⟨by decide,
   c9_start_is_noop_when_running runningService (some "otherhook")
     (some "gifthook") (by decide)⟩

/-- C10: `send_gift_notification` restores the dispatcher's main
`webhook_url` to its prior value after every call, while the send itself goes
to the gift webhook URL whenever one is configured (and to the main URL
otherwise). -/
theorem c10_gift_send_restores_main_webhook (w : DiscordWebhook)
    (httpOk : Bool) :
    (w.send_gift_notification httpOk).1.webhook_url = w.webhook_url ∧
    (w.send_gift_notification httpOk).1.gift_webhook_url = w.gift_webhook_url ∧
    (w.send_gift_notification httpOk).2 =
      DiscordWebhook.send
        { webhook_url := pyOrStr w.gift_webhook_url w.webhook_url,
          gift_webhook_url := w.gift_webhook_url } httpOk := by
  unfold DiscordWebhook.send_gift_notification DiscordWebhook.send pyOrStr
  dsimp only
  by_cases hg : w.gift_webhook_url = ""
  · simp [hg]
  · simp [hg]

end TikTokNotifier
